import Mathlib

/-!
Verification of the Netlify serverless checkout handler
(`netlify/functions/createCheckout.js`).

The handler is embedded shallowly:

* JavaScript runtime values that can appear in a parsed JSON body (plus
  `undefined`) are the inductive type `JSValue`.
* Property access `v.k` is `getProp`: it throws (returns `.error`) on
  `null` and `undefined` receivers, returns `undefined` for a property
  missing on an object, and returns `undefined` on any other primitive
  or array receiver, mirroring JavaScript semantics.
* `JSON.parse` and the Stripe client (`stripe.checkout.sessions.create`)
  are platform/SDK builtins external to the repository, so the handler is
  parameterised over them: `parse : String → Except String JSValue` and
  `create : SessionParams → Except String Session`, where `.error msg`
  stands for a thrown error whose `.message` is `msg`.
* One invocation is pure: `handler` returns the HTTP response together
  with the list of provider calls made and the list of `console.error`
  log lines emitted, so "the provider is invoked exactly once with P" and
  "the error is logged once" are statable.
-/

/-- JavaScript values relevant to the handler: everything JSON can produce
plus `undefined`.  Numbers are modelled as rationals (no arithmetic is ever
performed on them; they are only copied and tested for truthiness). -/
inductive JSValue where
  | undefined : JSValue
  | null : JSValue
  | bool : Bool → JSValue
  | num : Rat → JSValue
  | str : String → JSValue
  | arr : List JSValue → JSValue
  | obj : List (String × JSValue) → JSValue


/-- JavaScript truthiness of a value (`Boolean(v)`): `undefined`, `null`,
`false`, `0` and `""` are falsy; every object and array is truthy. -/
def truthy : JSValue → Bool
  | .undefined => false
  | .null => false
  | .bool b => b
  | .num n => n ≠ 0
  | .str s => s ≠ ""
  | .arr _ => true
  | .obj _ => true

/-- Message of the TypeError thrown by `v.k` when `v` is `null`. -/
def nullPropMsg (k : String) : String :=
  "Cannot read properties of null (reading " ++ k ++ ")"

/-- Message of the TypeError thrown by `v.k` when `v` is `undefined`. -/
def undefinedPropMsg (k : String) : String :=
  "Cannot read properties of undefined (reading " ++ k ++ ")"

/-- Property access `v.k` (also what destructuring `const \x7b k \x7d = v`
performs): throws a TypeError on `null`/`undefined`, looks the key up on an
object (missing key gives `undefined`), and gives `undefined` on any other
primitive or array receiver (`name`, `price`, `quantity` are not built-in
properties of those). -/
def getProp (v : JSValue) (k : String) : Except String JSValue :=
  match v with
  | .null => .error (nullPropMsg k)
  | .undefined => .error (undefinedPropMsg k)
  | .obj fields =>
    match fields.lookup k with
    | some w => .ok w
    | none => .ok .undefined
  | _ => .ok .undefined

/-- `Array.isArray(v)`. -/
def isArray : JSValue → Bool
  | .arr _ => true
  | _ => false

/-- `product_data` of a Stripe line item (source lines 39-41). -/
structure ProductData where
  name : JSValue


/-- `price_data` of a Stripe line item (source lines 37-44). -/
structure PriceData where
  currency : String
  product_data : ProductData
  unit_amount : JSValue


/-- A Stripe line item as built by the handler (source lines 36-46). -/
structure LineItem where
  price_data : PriceData
  quantity : JSValue


/-- The per-item body of `items.map` (source lines 36-46): builds the line
item for one purchase item.  Property reads happen in source order (`name`,
`price`, `quantity`); any of them throws when `item` is `null` or
`undefined`.  `quantity` is `item.quantity || 1`: the item quantity when
truthy, else the number `1`. -/
def toLineItem (item : JSValue) : Except String LineItem :=
  match getProp item "name" with
  | .error msg => .error msg
  | .ok name =>
    match getProp item "price" with
    | .error msg => .error msg
    | .ok price =>
      match getProp item "quantity" with
      | .error msg => .error msg
      | .ok qty =>
        .ok { price_data := { currency := "usd"
                            , product_data := { name := name }
                            , unit_amount := price }
            , quantity := if truthy qty then qty else .num 1 }

/-- `Array.prototype.map` with a callback that may throw: elements are
processed left to right and the first thrown error propagates. -/
def arrayMap (f : α → Except ε β) : List α → Except ε (List β)
  | [] => .ok []
  | x :: xs =>
    match f x with
    | .error e => .error e
    | .ok y =>
      match arrayMap f xs with
      | .error e => .error e
      | .ok ys => .ok (y :: ys)

/-- The argument object of `stripe.checkout.sessions.create`
(source lines 48-54). -/
structure SessionParams where
  payment_method_types : List String
  line_items : List LineItem
  mode : String
  success_url : String
  cancel_url : String


/-- The provider's checkout session: only its `url` field is consumed
(source line 58). -/
structure Session where
  url : String


/-- The environment configuration the handler reads: `process.env.SUCCESS_URL`
and `process.env.CANCEL_URL` (each a string or `undefined`). -/
structure Config where
  SUCCESS_URL : Option String
  CANCEL_URL : Option String


/-- `v || d` for an environment variable `v` (string or `undefined`): the
fallback is used when the variable is absent or the empty string (both are
falsy). -/
def strOr (v : Option String) (d : String) : String :=
  match v with
  | some s => if s = "" then d else s
  | none => d

/-- The inbound event: HTTP method and raw body (`event.body` is a string
or `null`/absent, modelled as `Option String`). -/
structure Event where
  httpMethod : String
  body : Option String


/-- `event.body || '\x7b\x7d'` (source line 28): an absent or empty body
defaults to the two-character string `"\x7b\x7d"`. -/
def bodyOrDefault : Option String → String
  | some s => if s = "" then "\x7b\x7d" else s
  | none => "\x7b\x7d"

/-- An HTTP-shaped response: status code and body string. -/
structure Response where
  statusCode : Nat
  body : String


/-- One hexadecimal digit, for `\u00XX` escapes in `JSON.stringify`. -/
def hexDigit (n : Nat) : String :=
  match n with
  | 0 => "0" | 1 => "1" | 2 => "2" | 3 => "3" | 4 => "4"
  | 5 => "5" | 6 => "6" | 7 => "7" | 8 => "8" | 9 => "9"
  | 10 => "a" | 11 => "b" | 12 => "c" | 13 => "d" | 14 => "e"
  | _ => "f"

/-- Escaping of one character inside a JSON string, as `JSON.stringify`
performs it. -/
def jsonEscapeChar (c : Char) : String :=
  if c = '"' then "\\\""
  else if c = '\\' then "\\\\"
  else if c = '\n' then "\\n"
  else if c = '\r' then "\\r"
  else if c = '\t' then "\\t"
  else if c.toNat = 8 then "\\b"
  else if c.toNat = 12 then "\\f"
  else if c.toNat < 32 then "\\u00" ++ hexDigit (c.toNat / 16) ++ hexDigit (c.toNat % 16)
  else String.singleton c

/-- A JSON string literal for `s`, as `JSON.stringify` quotes it. -/
def jsonQuote (s : String) : String :=
  "\"" ++ String.join (s.data.map jsonEscapeChar) ++ "\""

/-- `JSON.stringify(\x7b error: msg \x7d)` for a string message. -/
def errorBody (msg : String) : String :=
  "\x7b\"error\":" ++ jsonQuote msg ++ "\x7d"

/-- `JSON.stringify(\x7b url: u \x7d)` for a string URL. -/
def urlBody (u : String) : String :=
  "\x7b\"url\":" ++ jsonQuote u ++ "\x7d"

/-- The fixed 400 error message (source line 32). -/
def invalidPayloadMsg : String := "Invalid payload: items must be an array"

/-- The session-creation argument built by the handler (source lines
48-53): card as sole payment method, the transformed line items, one-time
payment mode, and success/cancel URLs from the environment with fixed
placeholder fallbacks. -/
def sessionParams (env : Config) (line_items : List LineItem) : SessionParams :=
  { payment_method_types := ["card"]
  , line_items := line_items
  , mode := "payment"
  , success_url := strOr env.SUCCESS_URL "https://example.com/success"
  , cancel_url := strOr env.CANCEL_URL "https://example.com/cancel" }

/-- Result of one handler invocation: the HTTP response, the provider calls
made (arguments of each `stripe.checkout.sessions.create` call, in order),
and the `console.error` lines emitted. -/
structure HandlerResult where
  response : Response
  providerCalls : List SessionParams
  logs : List String


/-- The body of the `try` block (source lines 27-59).  `.ok` is a normal
return (response plus provider calls made so far); `.error` is a thrown
error carried to the `catch` clause together with the provider calls
already made. -/
def tryBlock (parse : String → Except String JSValue)
    (create : SessionParams → Except String Session)
    (env : Config) (event : Event) :
    Except (String × List SessionParams) (Response × List SessionParams) :=
  match parse (bodyOrDefault event.body) with
  | .error msg => .error (msg, [])
  | .ok parsed =>
    match getProp parsed "items" with
    | .error msg => .error (msg, [])
    | .ok items =>
      match items with
      | .arr xs =>
        match arrayMap toLineItem xs with
        | .error msg => .error (msg, [])
        | .ok line_items =>
          let params := sessionParams env line_items
          match create params with
          | .error msg => .error (msg, [params])
          | .ok session =>
            .ok ({ statusCode := 200, body := urlBody session.url }, [params])
      | _ =>
        .ok ({ statusCode := 400, body := errorBody invalidPayloadMsg }, [])

/-- `exports.handler` (source lines 23-67): the method gate, then the
`try`/`catch`.  The `catch` clause logs the error once and answers 500 with
the error message in a JSON body. -/
def handler (parse : String → Except String JSValue)
    (create : SessionParams → Except String Session)
    (env : Config) (event : Event) : HandlerResult :=
  if event.httpMethod ≠ "POST" then
    { response := { statusCode := 405, body := "Method Not Allowed" }
    , providerCalls := []
    , logs := [] }
  else
    match tryBlock parse create env event with
    | .ok (resp, calls) =>
      { response := resp, providerCalls := calls, logs := [] }
    | .error (msg, calls) =>
      { response := { statusCode := 500, body := errorBody msg }
      , providerCalls := calls
      , logs := ["Stripe checkout error: " ++ msg] }

/-- A parse function that ignores its input and returns a fixed value, used
to instantiate the `JSON.parse` parameter at concrete inputs. -/
def parseConst (v : JSValue) : String → Except String JSValue :=
  fun _ => .ok v

/-- A parse function that always throws, modelling `JSON.parse` on a
malformed body. -/
def parseFail : String → Except String JSValue :=
  fun _ => .error "Unexpected token o in JSON at position 1"

/-- A provider that always succeeds with a fixed session URL. -/
def createOk : SessionParams → Except String Session :=
  fun _ => .ok { url := "https://pay.example/s1" }

/-- A provider that always rejects, modelling a Stripe API failure. -/
def createFail : SessionParams → Except String Session :=
  fun _ => .error "Invalid API Key provided"

/-- An environment with both redirect URLs unset. -/
def env0 : Config := { SUCCESS_URL := none, CANCEL_URL := none }

/- Helper lemmas. -/

/-- On a successful `toLineItem`, the result is determined by the three
property reads. -/
theorem toLineItem_ok (item n p q : JSValue)
    (hn : getProp item "name" = .ok n)
    (hp : getProp item "price" = .ok p)
    (hq : getProp item "quantity" = .ok q) :
    toLineItem item =
      .ok { price_data := { currency := "usd"
                          , product_data := { name := n }
                          , unit_amount := p }
          , quantity := if truthy q then q else .num 1 } := by
  simp [toLineItem, hn, hp, hq]

/-- Property access only throws on `null` and `undefined` receivers. -/
theorem getProp_ok_of_ne (v : JSValue) (k : String)
    (h1 : v ≠ .null) (h2 : v ≠ .undefined) :
    ∃ w, getProp v k = .ok w := by
  cases v with
  | null => exact absurd rfl h1
  | undefined => exact absurd rfl h2
  | obj fields =>
    cases h : fields.lookup k with
    | some w => exact ⟨w, by simp [getProp, h]⟩
    | none => exact ⟨.undefined, by simp [getProp, h]⟩
  | bool b => exact ⟨.undefined, rfl⟩
  | num n => exact ⟨.undefined, rfl⟩
  | str s => exact ⟨.undefined, rfl⟩
  | arr xs => exact ⟨.undefined, rfl⟩

/-- `toLineItem` succeeds on every value other than `null` and
`undefined`. -/
theorem toLineItem_ok_of_ne (item : JSValue)
    (h1 : item ≠ .null) (h2 : item ≠ .undefined) :
    ∃ li, toLineItem item = .ok li := by
  obtain ⟨n, hn⟩ := getProp_ok_of_ne item "name" h1 h2
  obtain ⟨p, hp⟩ := getProp_ok_of_ne item "price" h1 h2
  obtain ⟨q, hq⟩ := getProp_ok_of_ne item "quantity" h1 h2
  exact ⟨_, toLineItem_ok item n p q hn hp hq⟩

/-- A successful `arrayMap` preserves the length of the list. -/
theorem arrayMap_length {α ε β : Type} (f : α → Except ε β)
    (xs : List α) (ys : List β) (h : arrayMap f xs = .ok ys) :
    ys.length = xs.length := by
  induction xs generalizing ys with
  | nil =>
    simp only [arrayMap] at h
    cases h
    rfl
  | cons x xs ih =>
    cases hx : f x with
    | error e => simp [arrayMap, hx] at h
    | ok y =>
      cases ht : arrayMap f xs with
      | error e => simp [arrayMap, hx, ht] at h
      | ok ys2 =>
        simp only [arrayMap, hx, ht] at h
        cases h
        simp [ih ys2 ht]

/-- A successful `arrayMap` applies `f` position by position: the output at
index `i` is the successful image of the input at index `i`. -/
theorem arrayMap_get {α ε β : Type} (f : α → Except ε β)
    (xs : List α) (ys : List β) (h : arrayMap f xs = .ok ys)
    (i : Nat) (h1 : i < xs.length) (h2 : i < ys.length) :
    f (xs.get ⟨i, h1⟩) = .ok (ys.get ⟨i, h2⟩) := by
  induction xs generalizing ys i with
  | nil => simp at h1
  | cons x xs ih =>
    cases hx : f x with
    | error e => simp [arrayMap, hx] at h
    | ok y =>
      cases ht : arrayMap f xs with
      | error e => simp [arrayMap, hx, ht] at h
      | ok ys2 =>
        simp only [arrayMap, hx, ht] at h
        cases h
        cases i with
        | zero => simpa using hx
        | succ n =>
          exact ih ys2 ht n (Nat.lt_of_succ_lt_succ h1) (Nat.lt_of_succ_lt_succ h2)

/-- A list containing `null` or `undefined` makes the transform throw. -/
theorem arrayMap_error_of_bad (xs : List JSValue)
    (h : JSValue.null ∈ xs ∨ JSValue.undefined ∈ xs) :
    ∃ msg, arrayMap toLineItem xs = .error msg := by
  induction xs with
  | nil =>
    rcases h with h | h <;> simp at h
  | cons x xs ih =>
    by_cases hx1 : x = JSValue.null
    · subst hx1
      exact ⟨nullPropMsg "name", rfl⟩
    by_cases hx2 : x = JSValue.undefined
    · subst hx2
      exact ⟨undefinedPropMsg "name", rfl⟩
    · have htail : JSValue.null ∈ xs ∨ JSValue.undefined ∈ xs := by
        rcases h with h | h
        · cases h with
          | head => exact absurd rfl hx1
          | tail _ hm => exact Or.inl hm
        · cases h with
          | head => exact absurd rfl hx2
          | tail _ hm => exact Or.inr hm
      obtain ⟨li, hli⟩ := toLineItem_ok_of_ne x hx1 hx2
      obtain ⟨msg, hmsg⟩ := ih htail
      exact ⟨msg, by simp [arrayMap, hli, hmsg]⟩

/-- Claim C1: for every purchase item, the generated line item's quantity is
`item.quantity` when that value is truthy and the number `1` otherwise; in
particular `quantity: 0` yields quantity `1` (zero is coerced to the
default), and an omitted `quantity` also yields `1`. -/
theorem claim1_quantity_coercion :
    (∀ (item q : JSValue) (li : LineItem),
        getProp item "quantity" = .ok q →
        toLineItem item = .ok li →
        li.quantity = if truthy q then q else .num 1) ∧
    (toLineItem (.obj [("name", .str "Widget"), ("price", .num 499), ("quantity", .num 0)]) =
      .ok { price_data := { currency := "usd"
                          , product_data := { name := .str "Widget" }
                          , unit_amount := .num 499 }
          , quantity := .num 1 }) ∧
    (toLineItem (.obj [("name", .str "Widget"), ("price", .num 499)]) =
      .ok { price_data := { currency := "usd"
                          , product_data := { name := .str "Widget" }
                          , unit_amount := .num 499 }
          , quantity := .num 1 }) := by
  refine ⟨?_, rfl, rfl⟩
  intro item q li hq hli
  cases hn : getProp item "name" with
  | error e => simp [toLineItem, hn] at hli
  | ok n =>
    cases hp : getProp item "price" with
    | error e => simp [toLineItem, hn, hp] at hli
    | ok p =>
      rw [toLineItem_ok item n p q hn hp hq] at hli
      cases hli
      rfl

/-- Claim C5: any request whose method is not `POST` is answered immediately
with status 405 and the plain-text body `Method Not Allowed`, with no
provider call and no log, whatever the body and whatever the parse and
provider behaviours are. -/
theorem claim5_method_gate
    (parse : String → Except String JSValue)
    (create : SessionParams → Except String Session)
    (env : Config) (event : Event)
    (h : event.httpMethod ≠ "POST") :
    handler parse create env event =
      { response := { statusCode := 405, body := "Method Not Allowed" }
      , providerCalls := []
      , logs := [] } := by
  simp [handler, h]

/-- Witness for C5: a GET request with a well-formed body is still rejected
with 405 and no provider call, even under a parse function that would
throw. -/
theorem claim5_method_gate_witness :
    handler parseFail createOk env0 { httpMethod := "GET", body := some "\x7b\x7d" } =
      { response := { statusCode := 405, body := "Method Not Allowed" }
      , providerCalls := []
      , logs := [] } :=
  claim5_method_gate parseFail createOk env0
    { httpMethod := "GET", body := some "\x7b\x7d" } (by decide)

/-- Claim C6: every generated line item carries the fixed currency `usd`,
the item's `name` copied verbatim (no presence or type check: a missing
name passes through as `undefined`), and the item's `price` copied verbatim
(no numeric validation: a negative value passes through). -/
theorem claim6_verbatim_fields :
    (∀ (item n p : JSValue) (li : LineItem),
        getProp item "name" = .ok n →
        getProp item "price" = .ok p →
        toLineItem item = .ok li →
        li.price_data = { currency := "usd"
                        , product_data := { name := n }
                        , unit_amount := p }) ∧
    (toLineItem (.obj [("price", .num (-7))]) =
      .ok { price_data := { currency := "usd"
                          , product_data := { name := .undefined }
                          , unit_amount := .num (-7) }
          , quantity := .num 1 }) := by
  refine ⟨?_, rfl⟩
  intro item n p li hn hp hli
  cases hq : getProp item "quantity" with
  | error e => simp [toLineItem, hn, hp, hq] at hli
  | ok q =>
    rw [toLineItem_ok item n p q hn hp hq] at hli
    cases hli
    rfl

/-- On a POST request that parses, passes the shape check and transforms
successfully, the provider is called exactly once with the packaged
session parameters, whatever its outcome. -/
theorem handler_providerCalls
    (parse : String → Except String JSValue)
    (create : SessionParams → Except String Session)
    (env : Config) (event : Event) (v : JSValue)
    (xs : List JSValue) (ls : List LineItem)
    (hpost : event.httpMethod = "POST")
    (hparse : parse (bodyOrDefault event.body) = .ok v)
    (hitems : getProp v "items" = .ok (.arr xs))
    (hmap : arrayMap toLineItem xs = .ok ls) :
    (handler parse create env event).providerCalls = [sessionParams env ls] := by
  cases hcreate : create (sessionParams env ls) with
  | error msg => simp [handler, hpost, tryBlock, hparse, hitems, hmap, hcreate]
  | ok sess => simp [handler, hpost, tryBlock, hparse, hitems, hmap, hcreate]

/-- Claim C2: on a POST request, every failure thrown during body parsing,
during the transform, or during the provider call reaches the single
catch clause: the error is logged exactly once and the response is status
500 with body `\x7b"error": <message>\x7d`; in particular a parse failure
(malformed JSON) yields 500, never 400. -/
theorem claim2_catch_all_500
    (parse : String → Except String JSValue)
    (create : SessionParams → Except String Session)
    (env : Config) (event : Event)
    (hpost : event.httpMethod = "POST") :
    (∀ msg, parse (bodyOrDefault event.body) = .error msg →
      handler parse create env event =
        { response := { statusCode := 500, body := errorBody msg }
        , providerCalls := []
        , logs := ["Stripe checkout error: " ++ msg] }) ∧
    (∀ v msg, parse (bodyOrDefault event.body) = .ok v →
      getProp v "items" = .error msg →
      handler parse create env event =
        { response := { statusCode := 500, body := errorBody msg }
        , providerCalls := []
        , logs := ["Stripe checkout error: " ++ msg] }) ∧
    (∀ v xs msg, parse (bodyOrDefault event.body) = .ok v →
      getProp v "items" = .ok (.arr xs) →
      arrayMap toLineItem xs = .error msg →
      handler parse create env event =
        { response := { statusCode := 500, body := errorBody msg }
        , providerCalls := []
        , logs := ["Stripe checkout error: " ++ msg] }) ∧
    (∀ v xs ls msg, parse (bodyOrDefault event.body) = .ok v →
      getProp v "items" = .ok (.arr xs) →
      arrayMap toLineItem xs = .ok ls →
      create (sessionParams env ls) = .error msg →
      handler parse create env event =
        { response := { statusCode := 500, body := errorBody msg }
        , providerCalls := [sessionParams env ls]
        , logs := ["Stripe checkout error: " ++ msg] }) := by
  refine ⟨?_, ?_, ?_, ?_⟩
  · intro msg hparse
    simp [handler, hpost, tryBlock, hparse]
  · intro v msg hparse hitems
    simp [handler, hpost, tryBlock, hparse, hitems]
  · intro v xs msg hparse hitems hmap
    simp [handler, hpost, tryBlock, hparse, hitems, hmap]
  · intro v xs ls msg hparse hitems hmap hcreate
    simp [handler, hpost, tryBlock, hparse, hitems, hmap, hcreate]

/-- Witness for C2: a POST request whose body fails to parse is answered
with 500 carrying the parse error's message, and exactly one log line is
emitted. -/
theorem claim2_catch_all_500_witness :
    handler parseFail createOk env0 { httpMethod := "POST", body := some "once upon" } =
      { response := { statusCode := 500
                    , body := errorBody "Unexpected token o in JSON at position 1" }
      , providerCalls := []
      , logs := ["Stripe checkout error: " ++ "Unexpected token o in JSON at position 1"] } :=
  (claim2_catch_all_500 parseFail createOk env0
    { httpMethod := "POST", body := some "once upon" } rfl).1
    "Unexpected token o in JSON at position 1" rfl

/-- Claim C3: on a POST request whose body parses, an `items` field that is
not an array is answered with 400 and the fixed error body, with no
provider call and no log; an empty array instead proceeds to the provider
call. -/
theorem claim3_items_not_array
    (parse : String → Except String JSValue)
    (create : SessionParams → Except String Session)
    (env : Config) (event : Event) (v items : JSValue)
    (hpost : event.httpMethod = "POST")
    (hparse : parse (bodyOrDefault event.body) = .ok v)
    (hitems : getProp v "items" = .ok items) :
    (isArray items = false →
      handler parse create env event =
        { response := { statusCode := 400, body := errorBody invalidPayloadMsg }
        , providerCalls := []
        , logs := [] }) ∧
    (items = .arr [] →
      (handler parse create env event).providerCalls = [sessionParams env []]) := by
  constructor
  · intro hnarr
    cases items with
    | arr xs => simp [isArray] at hnarr
    | _ => simp [handler, hpost, tryBlock, hparse, hitems]
  · intro harr
    subst harr
    cases hcreate : create (sessionParams env []) with
    | error msg => simp [handler, hpost, tryBlock, hparse, hitems, arrayMap, hcreate]
    | ok sess => simp [handler, hpost, tryBlock, hparse, hitems, arrayMap, hcreate]

/-- Witness for C3: a POST body parsing to `\x7b"items": "x"\x7d` (a
scalar in the `items` field) is answered with 400 and the fixed message,
without invoking the provider. -/
theorem claim3_items_not_array_witness :
    handler (parseConst (.obj [("items", .str "x")])) createOk env0
        { httpMethod := "POST", body := some "\x7b\"items\":\"x\"\x7d" } =
      { response := { statusCode := 400, body := errorBody invalidPayloadMsg }
      , providerCalls := []
      , logs := [] } :=
  (claim3_items_not_array (parseConst (.obj [("items", .str "x")])) createOk env0
    { httpMethod := "POST", body := some "\x7b\"items\":\"x\"\x7d" }
    (.obj [("items", .str "x")]) (.str "x") rfl rfl rfl).1 rfl

/-- Claim C4: on a successful transform, the line-items list handed to the
provider has exactly the input's length, and the line item at each index is
the image of the purchase item at the same index (no filtering, no
reordering). -/
theorem claim4_order_preserved
    (parse : String → Except String JSValue)
    (create : SessionParams → Except String Session)
    (env : Config) (event : Event) (v : JSValue)
    (xs : List JSValue) (ls : List LineItem)
    (hpost : event.httpMethod = "POST")
    (hparse : parse (bodyOrDefault event.body) = .ok v)
    (hitems : getProp v "items" = .ok (.arr xs))
    (hmap : arrayMap toLineItem xs = .ok ls) :
    (handler parse create env event).providerCalls = [sessionParams env ls] ∧
    ls.length = xs.length ∧
    ∀ (i : Nat) (h1 : i < xs.length) (h2 : i < ls.length),
      toLineItem (xs.get ⟨i, h1⟩) = .ok (ls.get ⟨i, h2⟩) := by
  exact ⟨handler_providerCalls parse create env event v xs ls hpost hparse hitems hmap,
    arrayMap_length toLineItem xs ls hmap, arrayMap_get toLineItem xs ls hmap⟩

/-- Witness for C4: a two-item payload yields exactly two line items, in
input order, and the provider receives exactly that list. -/
theorem claim4_order_preserved_witness :
    (handler
        (parseConst (.obj [("items", .arr
          [ .obj [("name", .str "A"), ("price", .num 100)]
          , .obj [("name", .str "B"), ("price", .num 200), ("quantity", .num 2)] ])]))
        createOk env0 { httpMethod := "POST", body := some "b" }).providerCalls =
      [sessionParams env0
        [ { price_data := { currency := "usd"
                          , product_data := { name := .str "A" }
                          , unit_amount := .num 100 }
          , quantity := .num 1 }
        , { price_data := { currency := "usd"
                          , product_data := { name := .str "B" }
                          , unit_amount := .num 200 }
          , quantity := .num 2 } ]] :=
  (claim4_order_preserved
    (parseConst (.obj [("items", .arr
      [ .obj [("name", .str "A"), ("price", .num 100)]
      , .obj [("name", .str "B"), ("price", .num 200), ("quantity", .num 2)] ])]))
    createOk env0 { httpMethod := "POST", body := some "b" }
    (.obj [("items", .arr
      [ .obj [("name", .str "A"), ("price", .num 100)]
      , .obj [("name", .str "B"), ("price", .num 200), ("quantity", .num 2)] ])])
    [ .obj [("name", .str "A"), ("price", .num 100)]
    , .obj [("name", .str "B"), ("price", .num 200), ("quantity", .num 2)] ]
    [ { price_data := { currency := "usd"
                      , product_data := { name := .str "A" }
                      , unit_amount := .num 100 }
      , quantity := .num 1 }
    , { price_data := { currency := "usd"
                      , product_data := { name := .str "B" }
                      , unit_amount := .num 200 }
      , quantity := .num 2 } ]
    rfl rfl rfl rfl).1

/-- Counterexample to C7 as stated: the POST body `\x7b"items":[null]\x7d`
parses successfully and its `items` field IS an array, so the shape check
passes; yet the transform throws on the `null` element before the provider
call, so the provider is invoked zero times, not exactly once. -/
theorem claim7_counterexample :
    isArray (JSValue.arr [JSValue.null]) = true ∧
    ¬ ((handler (parseConst (.obj [("items", .arr [JSValue.null])])) createOk env0
        { httpMethod := "POST", body := some "\x7b\"items\":[null]\x7d" }).providerCalls.length = 1) := by
  constructor
  · rfl
  · intro h
    simp [handler, tryBlock, parseConst, bodyOrDefault, getProp, arrayMap, toLineItem] at h

/-- Claim C7 amended: on a POST request that passes the shape check AND
whose transform succeeds, the provider's session-creation operation is
invoked exactly once, with card as the sole accepted payment method, the
transformed line items, one-time-payment mode, and success/cancel URLs
from configuration with fixed placeholder fallbacks (all packaged by
`sessionParams`). -/
theorem claim7_provider_invocation
    (parse : String → Except String JSValue)
    (create : SessionParams → Except String Session)
    (env : Config) (event : Event) (v : JSValue)
    (xs : List JSValue) (ls : List LineItem)
    (hpost : event.httpMethod = "POST")
    (hparse : parse (bodyOrDefault event.body) = .ok v)
    (hitems : getProp v "items" = .ok (.arr xs))
    (hmap : arrayMap toLineItem xs = .ok ls) :
    (handler parse create env event).providerCalls =
      [{ payment_method_types := ["card"]
       , line_items := ls
       , mode := "payment"
       , success_url := strOr env.SUCCESS_URL "https://example.com/success"
       , cancel_url := strOr env.CANCEL_URL "https://example.com/cancel" }] := by
  rw [handler_providerCalls parse create env event v xs ls hpost hparse hitems hmap]
  rfl

/-- Witness for the amended C7: with both environment URLs set, a one-item
payload leads to exactly one provider call carrying cards only, the
transformed line item, payment mode, and the configured URLs. -/
theorem claim7_provider_invocation_witness :
    (handler (parseConst (.obj [("items", .arr [.obj [("name", .str "W"), ("price", .num 499)]])]))
        createFail
        { SUCCESS_URL := some "https://shop.example/ok", CANCEL_URL := some "https://shop.example/no" }
        { httpMethod := "POST", body := some "b" }).providerCalls =
      [{ payment_method_types := ["card"]
       , line_items := [ { price_data := { currency := "usd"
                                         , product_data := { name := .str "W" }
                                         , unit_amount := .num 499 }
                         , quantity := .num 1 } ]
       , mode := "payment"
       , success_url := "https://shop.example/ok"
       , cancel_url := "https://shop.example/no" }] :=
  claim7_provider_invocation
    (parseConst (.obj [("items", .arr [.obj [("name", .str "W"), ("price", .num 499)]])]))
    createFail
    { SUCCESS_URL := some "https://shop.example/ok", CANCEL_URL := some "https://shop.example/no" }
    { httpMethod := "POST", body := some "b" }
    (.obj [("items", .arr [.obj [("name", .str "W"), ("price", .num 499)]])])
    [.obj [("name", .str "W"), ("price", .num 499)]]
    [ { price_data := { currency := "usd"
                      , product_data := { name := .str "W" }
                      , unit_amount := .num 499 }
      , quantity := .num 1 } ]
    rfl rfl rfl rfl

/-- Claim C8: on a POST request with a valid `items` array whose transform
succeeds, a successful provider call with session URL `u` is relayed as
status 200 with body `\x7b"url": u\x7d`; the provider was called exactly
once and nothing was logged.  (The witness instantiates this at
`items = []`, where the provider receives an empty line-items list.) -/
theorem claim8_success_relay
    (parse : String → Except String JSValue)
    (create : SessionParams → Except String Session)
    (env : Config) (event : Event) (v : JSValue)
    (xs : List JSValue) (ls : List LineItem) (u : String)
    (hpost : event.httpMethod = "POST")
    (hparse : parse (bodyOrDefault event.body) = .ok v)
    (hitems : getProp v "items" = .ok (.arr xs))
    (hmap : arrayMap toLineItem xs = .ok ls)
    (hcreate : create (sessionParams env ls) = .ok { url := u }) :
    handler parse create env event =
      { response := { statusCode := 200, body := urlBody u }
      , providerCalls := [sessionParams env ls]
      , logs := [] } := by
  simp [handler, hpost, tryBlock, hparse, hitems, hmap, hcreate]

/-- Witness for C8: `items = []` proceeds, the provider receives an empty
line-items list and its session URL is relayed with status 200. -/
theorem claim8_success_relay_witness :
    handler (parseConst (.obj [("items", .arr [])])) createOk env0
        { httpMethod := "POST", body := some "\x7b\"items\":[]\x7d" } =
      { response := { statusCode := 200, body := urlBody "https://pay.example/s1" }
      , providerCalls := [sessionParams env0 []]
      , logs := [] } :=
  claim8_success_relay (parseConst (.obj [("items", .arr [])])) createOk env0
    { httpMethod := "POST", body := some "\x7b\"items\":[]\x7d" }
    (.obj [("items", .arr [])]) [] [] "https://pay.example/s1"
    rfl rfl rfl rfl rfl

/-- Claim C9: a POST body consisting of the four-character text `null`
parses successfully to the value `null`; destructuring `items` from `null`
then throws, so the handler answers 500 through the catch-all (with the
TypeError's message), not 400 and not 200, and the provider is never
invoked. -/
theorem claim9_null_body
    (parse : String → Except String JSValue)
    (create : SessionParams → Except String Session)
    (env : Config)
    (hparse : parse "null" = .ok .null) :
    handler parse create env { httpMethod := "POST", body := some "null" } =
      { response := { statusCode := 500, body := errorBody (nullPropMsg "items") }
      , providerCalls := []
      , logs := ["Stripe checkout error: " ++ nullPropMsg "items"] } := by
  have hbody : bodyOrDefault (some "null") = "null" := rfl
  simp [handler, tryBlock, hbody, hparse, getProp]

/-- Witness for C9: a concrete parse function agreeing with `JSON.parse` on
the text `null` exhibits the 500 outcome. -/
theorem claim9_null_body_witness :
    handler (parseConst .null) createOk env0 { httpMethod := "POST", body := some "null" } =
      { response := { statusCode := 500, body := errorBody (nullPropMsg "items") }
      , providerCalls := []
      , logs := ["Stripe checkout error: " ++ nullPropMsg "items"] } :=
  claim9_null_body (parseConst .null) createOk env0 rfl

/-- Claim C10: a POST `items` array containing a `null` or `undefined`
element makes the transform throw while reading that element's `name`, so
the handler answers 500 and the provider is never invoked; non-null
primitive elements (numbers, strings) do not throw and are forwarded with
`undefined` name and price and quantity defaulted to `1`. -/
theorem claim10_bad_elements :
    (∀ (parse : String → Except String JSValue)
       (create : SessionParams → Except String Session)
       (env : Config) (event : Event) (v : JSValue) (xs : List JSValue),
      event.httpMethod = "POST" →
      parse (bodyOrDefault event.body) = .ok v →
      getProp v "items" = .ok (.arr xs) →
      (JSValue.null ∈ xs ∨ JSValue.undefined ∈ xs) →
      (handler parse create env event).response.statusCode = 500 ∧
      (handler parse create env event).providerCalls = []) ∧
    (∀ q : Rat, toLineItem (.num q) =
      .ok { price_data := { currency := "usd"
                          , product_data := { name := .undefined }
                          , unit_amount := .undefined }
          , quantity := .num 1 }) ∧
    (∀ s : String, toLineItem (.str s) =
      .ok { price_data := { currency := "usd"
                          , product_data := { name := .undefined }
                          , unit_amount := .undefined }
          , quantity := .num 1 }) := by
  refine ⟨?_, fun q => rfl, fun s => rfl⟩
  intro parse create env event v xs hpost hparse hitems hbad
  obtain ⟨msg, hmsg⟩ := arrayMap_error_of_bad xs hbad
  constructor <;> simp [handler, hpost, tryBlock, hparse, hitems, hmsg]

/-- Witness for C10: `items = [null]` under a POST request gives a 500
response with no provider call. -/
theorem claim10_bad_elements_witness :
    (handler (parseConst (.obj [("items", .arr [JSValue.null])])) createOk env0
        { httpMethod := "POST", body := some "c" }).response.statusCode = 500 ∧
    (handler (parseConst (.obj [("items", .arr [JSValue.null])])) createOk env0
        { httpMethod := "POST", body := some "c" }).providerCalls = [] :=
  claim10_bad_elements.1 (parseConst (.obj [("items", .arr [JSValue.null])])) createOk env0
    { httpMethod := "POST", body := some "c" }
    (.obj [("items", .arr [JSValue.null])]) [JSValue.null]
    rfl rfl rfl (Or.inl (List.Mem.head _))
